import Mathlib

/-!
Verification of the 51job web crawler (billyweiye/51jobwebcrawler) against its
natural-language specification.  Python source files are shallowly embedded as
Lean definitions: machine floats whose uses here stay exact are modelled by ℚ,
Python dicts by association lists, external library calls (datetime.strptime,
json, float(), the vendored acw_sc__v2 transform, the network) by explicit
function parameters, and the wall clock by explicit Nat timestamps.
-/

/-! ## General helpers: Python string primitives used across the code base -/

/-- Build a `String` from a character list. -/
def mkStr (cs : List Char) : String := ⟨cs⟩

/-- Python `needle in hay` on strings (substring containment), over char lists. -/
def containsSubList (needle : List Char) : List Char → Bool
  | [] => needle.isEmpty
  | hay@(_ :: t) => needle.isPrefixOf hay || containsSubList needle t

/-- Python `str.lower()` (the repository only relies on it for ASCII text). -/
def lowerChars (s : List Char) : List Char := s.map Char.toLower

/-- Python `str.strip()` with no arguments: drop whitespace from both ends. -/
def stripChars (s : List Char) : List Char :=
  ((s.dropWhile Char.isWhitespace).reverse.dropWhile Char.isWhitespace).reverse

/-- Python `re.sub(r'\s+', ' ', s)`: each maximal whitespace run becomes one space.
The boolean argument records whether the previous character was whitespace. -/
def collapseWsAux : Bool → List Char → List Char
  | _, [] => []
  | prevWs, c :: t =>
    if c.isWhitespace then
      if prevWs then collapseWsAux true t else ' ' :: collapseWsAux true t
    else c :: collapseWsAux false t

/-- Python `re.sub(r'\s+', ' ', s)`. -/
def collapseWs (s : List Char) : List Char := collapseWsAux false s

/-- Numeric value of a run of decimal digits (`int(group)` / `float(group)` on `\d+`). -/
def charsToNat (ds : List Char) : Nat :=
  ds.foldl (fun n c => 10 * n + (c.toNat - '0'.toNat)) 0

/-- Python dict assignment `m[k] = v` on an association list: overwrite in place
if the key exists, else append (CPython dicts preserve insertion order). -/
def setKey {α : Type} (k : String) (v : α) (m : List (String × α)) : List (String × α) :=
  if m.any (fun p => p.1 == k) then m.map (fun p => if p.1 == k then (k, v) else p)
  else m ++ [(k, v)]

/-- Python dict lookup `m.get(k)` on an association list. -/
def lookupKey {α : Type} (k : String) (m : List (String × α)) : Option α :=
  match m.find? (fun p => p.1 == k) with
  | some p => some p.2
  | none => none

/-! ## src/utils/data_validator.py — salary parsing (`DataValidator._parse_salary`)

`SALARY_PATTERNS` are tried in order with `re.search`; every quantified group
`\d+` is followed by a non-digit in its pattern, so greedy matching is exactly
"maximal digit run", and the regexes are embedded as leftmost scans. -/

/-- Leftmost `re.search` match of `(\d+)SEP(\d+)SUFFIX` attempted at the head of `s`. -/
def matchIntPairAt (sep suffix s : List Char) : Option (Nat × Nat) :=
  let d1 := s.takeWhile Char.isDigit
  if d1.isEmpty then none
  else
    let r1 := s.dropWhile Char.isDigit
    if sep.isPrefixOf r1 then
      let r2 := r1.drop sep.length
      let d2 := r2.takeWhile Char.isDigit
      if d2.isEmpty then none
      else if suffix.isPrefixOf (r2.dropWhile Char.isDigit) then
        some (charsToNat d1, charsToNat d2)
      else none
    else none

/-- Leftmost `re.search` of `(\d+)SEP(\d+)SUFFIX` over the whole string. -/
def findIntPair (sep suffix : List Char) : List Char → Option (Nat × Nat)
  | [] => none
  | s@(_ :: t) =>
    match matchIntPairAt sep suffix s with
    | some r => some r
    | none => findIntPair sep suffix t

/-- Match `\d+\.\d+` at the head of `s`, returning its value and the rest. -/
def matchDecNumAt (s : List Char) : Option (ℚ × List Char) :=
  let d1 := s.takeWhile Char.isDigit
  if d1.isEmpty then none
  else
    match s.dropWhile Char.isDigit with
    | '.' :: r2 =>
      let d2 := r2.takeWhile Char.isDigit
      if d2.isEmpty then none
      else some ((charsToNat d1 : ℚ) + (charsToNat d2 : ℚ) / (10 : ℚ) ^ d2.length,
                 r2.dropWhile Char.isDigit)
    | _ => none

/-- Match `(\d+\.\d+)-(\d+\.\d+)SUFFIX` at the head of `s`. -/
def matchDecPairAt (suffix s : List Char) : Option (ℚ × ℚ) :=
  match matchDecNumAt s with
  | none => none
  | some (v1, r1) =>
    match r1 with
    | '-' :: r2 =>
      match matchDecNumAt r2 with
      | none => none
      | some (v2, r3) => if suffix.isPrefixOf r3 then some (v1, v2) else none
    | _ => none

/-- Leftmost `re.search` of `(\d+\.\d+)-(\d+\.\d+)SUFFIX` over the whole string. -/
def findDecPair (suffix : List Char) : List Char → Option (ℚ × ℚ)
  | [] => none
  | s@(_ :: t) =>
    match matchDecPairAt suffix s with
    | some r => some r
    | none => findDecPair suffix t

/-- Floor of a rational, computed directly so that kernel reduction works. -/
def ratFloor (q : ℚ) : ℤ := q.num.fdiv q.den

/-- Python `round(x, 1)`.  (CPython rounds half to even; `N*10/12` has
denominator 1 or 3 after scaling by 10 and is never an exact half, so every
value this code rounds is tie-free and the tie-breaking mode is irrelevant.) -/
def pyRound1 (q : ℚ) : ℚ := (ratFloor (10 * q + 1 / 2) : ℚ) / 10

/-- `DataValidator._parse_salary`.  The branch taken for a matched pattern is
selected by substring tests on the *pattern text* (`'千/月' in pattern`, …);
pattern `(\d+)千-(\d+)万/月` therefore lands in the `'万/月' in pattern` branch
(both groups ×10), and the final `'千-' and '万/月'` branch is dead code.  The
`面议`/`薪资面议` patterns fall through every branch and act as no-ops; `面议`
is short-circuited earlier anyway. -/
def parseSalary (salaryText : String) : Option ℚ × Option ℚ :=
  if salaryText = "" then (none, none)
  else
    let s := stripChars salaryText.data
    if containsSubList "面议".data s then (none, none)
    else
      match findIntPair "-".data "千/月".data s with
      | some (a, b) => (some (a : ℚ), some (b : ℚ))
      | none =>
        match findIntPair "-".data "万/年".data s with
        | some (a, b) =>
          (some (pyRound1 ((a : ℚ) * 10 / 12)), some (pyRound1 ((b : ℚ) * 10 / 12)))
        | none =>
          match findIntPair "-".data "K".data s with
          | some (a, b) => (some (a : ℚ), some (b : ℚ))
          | none =>
            match findDecPair "万/月".data s with
            | some (a, b) => (some (a * 10), some (b * 10))
            | none =>
              match findIntPair "千-".data "万/月".data s with
              | some (a, b) => (some ((a : ℚ) * 10), some ((b : ℚ) * 10))
              | none => (none, none)

/-! ## src/utils/data_validator.py — `ValidationResult` and `validate_job_data`

The raw dict passed to `validate_job_data` is embedded as a structure of the
fields the validator reads (the code coerces each with `str(...)`, so they are
modelled as strings; `jobTags` may also be a list or another type).  Standard
library leaf calls (`datetime.strptime`, `float`, `json.dumps`/`loads`, float
formatting) are supplied as explicit parameters in `PyLib`; every control
decision of the repository code itself is embedded. -/

/-- `data.get('jobTags', [])`: a list, a string, or some other type. -/
inductive TagsVal : Type where
  | tlist : List String → TagsVal
  | tstr : String → TagsVal
  | other : TagsVal
deriving DecidableEq

/-- The fields of the raw job dict that `DataValidator` reads. -/
structure JobData where
  jobId : Option String := none
  jobName : Option String := none
  companyName : Option String := none
  fullCompanyName : Option String := none
  jobAreaString : Option String := none
  provideSalaryString : Option String := none
  workYear : Option String := none
  workYearString : Option String := none
  degreeString : Option String := none
  jobTags : TagsVal := TagsVal.tlist []
  lon : Option String := none
  lat : Option String := none
  issueDateString : Option String := none
  updateDateTime : Option String := none
  jobHref : Option String := none
  companyHref : Option String := none
  jobDescribe : Option String := none
  industryType1Str : Option String := none
  companyTypeString : Option String := none
  companySizeString : Option String := none
deriving DecidableEq

/-- A value stored into `cleaned_data` (Python: str, float, datetime, None, or
the raw dict kept under `raw_data`; datetimes are opaque tokens). -/
inductive CleanValue : Type where
  | vstr : String → CleanValue
  | vnum : ℚ → CleanValue
  | vdate : Nat → CleanValue
  | vnone : CleanValue
  | vraw : JobData → CleanValue
deriving DecidableEq

/-- Python standard-library leaves used by the validator, passed explicitly:
`strptime fmt s` (an opaque datetime token on success), `setYear y d`
(`d.replace(year=y)`), `nowYear` (`datetime.now().year`), `pyFloat`
(`float(s)`, `none` = `ValueError`), `jsonDumps`/`jsonLoads`
(`json.dumps` / `json.loads` on string arrays, `none` = `JSONDecodeError`),
`showQ` (float formatting in f-strings). -/
structure PyLib where
  strptime : String → String → Option Nat
  setYear : Nat → Nat → Nat
  nowYear : Nat
  pyFloat : String → Option ℚ
  jsonDumps : List String → String
  jsonLoads : String → Option (List String)
  showQ : ℚ → String

/-- Python truthiness of an optional string (`None` and `''` are falsy). -/
def truthy : Option String → Bool
  | none => false
  | some s => !(s == "")

/-- Python `a or b` on two optional strings. -/
def pyOr (a b : Option String) : Option String := if truthy a then a else b

/-- `ValidationResult` (src/utils/data_validator.py lines 26-41). -/
structure ValidationResult where
  is_valid : Bool
  cleaned_data : List (String × CleanValue)
  errors : List String
  warnings : List String
deriving DecidableEq

/-- `ValidationResult.add_error`: append the message and clear the flag. -/
def ValidationResult.addError (r : ValidationResult) (msg : String) : ValidationResult :=
  { r with errors := r.errors ++ [msg], is_valid := false }

/-- `ValidationResult.add_warning`: append the message only. -/
def ValidationResult.addWarning (r : ValidationResult) (msg : String) : ValidationResult :=
  { r with warnings := r.warnings ++ [msg] }

/-- `result.cleaned_data[k] = v`. -/
def ValidationResult.setField (r : ValidationResult) (k : String) (v : CleanValue) :
    ValidationResult :=
  { r with cleaned_data := setKey k v r.cleaned_data }

/-- `DataValidator._clean_string`. -/
def cleanStringV : Option String → CleanValue
  | none => CleanValue.vnone
  | some s =>
    if s == "" then CleanValue.vnone
    else
      let c := collapseWs (stripChars s.data)
      if c.isEmpty then CleanValue.vnone else CleanValue.vstr (mkStr c)

/-- `DataValidator._validate_required_fields`. -/
def validateRequiredFields (d : JobData) (r : ValidationResult) : ValidationResult :=
  [(d.jobId, "job_id"), (d.jobName, "title"), (d.companyName, "company_name"),
   (d.jobAreaString, "location_city")].foldl
    (fun acc p => if truthy p.1 then acc else acc.addError ("缺少必需字段: " ++ p.2)) r

/-- `DataValidator._validate_job_id`. -/
def validateJobId (d : JobData) (r : ValidationResult) : ValidationResult :=
  match d.jobId with
  | none => r
  | some s =>
    if s == "" then r
    else
      let c := stripChars s.data
      if c.isEmpty then r.addError "职位ID为空"
      else r.setField "job_id" (CleanValue.vstr (mkStr c))

/-- Shared cleanup of `_validate_job_name` / `_validate_company_name`: strip,
collapse whitespace, warn about and truncate names longer than 200 chars. -/
def cleanLongName (fieldKey warnLabel : String) (s : String) (r : ValidationResult) :
    ValidationResult :=
  let c := collapseWs (stripChars s.data)
  if 200 < c.length then
    (r.addWarning (warnLabel ++ toString c.length ++ " 字符")).setField fieldKey
      (CleanValue.vstr (mkStr (c.take 200)))
  else r.setField fieldKey (CleanValue.vstr (mkStr c))

/-- `DataValidator._validate_job_name`. -/
def validateJobName (d : JobData) (r : ValidationResult) : ValidationResult :=
  match d.jobName with
  | none => r
  | some s => if s == "" then r else cleanLongName "title" "职位名称过长: " s r

/-- `DataValidator._validate_company_name`. -/
def validateCompanyName (d : JobData) (r : ValidationResult) : ValidationResult :=
  let r :=
    match pyOr d.companyName d.fullCompanyName with
    | none => r
    | some s => if s == "" then r else cleanLongName "company_name" "公司名称过长: " s r
  (r.setField "company_type" (cleanStringV d.companyTypeString)).setField "company_size"
    (cleanStringV d.companySizeString)

/-- `DataValidator._validate_location`. -/
def validateLocation (d : JobData) (r : ValidationResult) : ValidationResult :=
  let r :=
    match d.jobAreaString with
    | none => r
    | some s =>
      if s == "" then r
      else r.setField "location_city" (CleanValue.vstr (mkStr (stripChars s.data)))
  r.setField "location_address" (cleanStringV d.jobAreaString)

/-- `DataValidator._validate_salary` as the code actually executes: the raw
text is kept under `salary_text`, then the call `self.parse_salary(...)` at
line 216 raises `AttributeError` on every record, because the class defines
only `_parse_salary` and no `parse_salary`; the `except Exception` handler
turns that into a warning, so `salary_min`/`salary_max` are never stored. -/
def validateSalary (d : JobData) (r : ValidationResult) : ValidationResult :=
  match d.provideSalaryString with
  | none => r
  | some s =>
    if s == "" then r
    else
      ((r.setField "salary_text" (CleanValue.vstr (mkStr (stripChars s.data)))).addWarning
        ("薪资解析失败: " ++ s ++
          ", 错误: 'DataValidator' object has no attribute 'parse_salary'"))

/-- `DataValidator._validate_work_experience`. -/
def validateWorkExperience (d : JobData) (r : ValidationResult) : ValidationResult :=
  r.setField "experience_required" (cleanStringV (pyOr d.workYear d.workYearString))

/-- `DataValidator._validate_education`. -/
def validateEducation (d : JobData) (r : ValidationResult) : ValidationResult :=
  r.setField "education_required" (cleanStringV d.degreeString)

/-- `DataValidator._validate_tags`. -/
def validateTags (lib : PyLib) (d : JobData) (r : ValidationResult) : ValidationResult :=
  match d.jobTags with
  | TagsVal.tlist ts =>
    let cleaned := (ts.filter (fun t => !(t == ""))).map (fun t => mkStr (stripChars t.data))
    r.setField "job_tags"
      (if cleaned.isEmpty then CleanValue.vnone else CleanValue.vstr (lib.jsonDumps cleaned))
  | TagsVal.tstr s =>
    if s.startsWith "[" && s.endsWith "]" then
      match lib.jsonLoads s with
      | some parsed =>
        r.setField "job_tags"
          (if parsed.isEmpty then CleanValue.vnone else CleanValue.vstr (lib.jsonDumps parsed))
      | none =>
        r.setField "job_tags" (if s == "" then CleanValue.vnone else CleanValue.vstr s)
    else r.setField "job_tags" (if s == "" then CleanValue.vnone else CleanValue.vstr s)
  | TagsVal.other => r.setField "job_tags" CleanValue.vnone

/-- One coordinate check inside `DataValidator._validate_coordinates`. -/
def validateOneCoord (lib : PyLib) (v : Option String) (bound : ℚ)
    (fieldKey badMsg rangeMsg : String) (r : ValidationResult) : ValidationResult :=
  match v with
  | none => r
  | some s =>
    if s == "" then r
    else
      match lib.pyFloat s with
      | none => r.addWarning (badMsg ++ s)
      | some x =>
        if -bound ≤ x ∧ x ≤ bound then r.setField fieldKey (CleanValue.vnum x)
        else r.addWarning (rangeMsg ++ lib.showQ x)

/-- `DataValidator._validate_coordinates`. -/
def validateCoordinates (lib : PyLib) (d : JobData) (r : ValidationResult) : ValidationResult :=
  validateOneCoord lib d.lat 90 "coordinates_lat" "无效的纬度值: " "纬度值超出范围: "
    (validateOneCoord lib d.lon 180 "coordinates_lng" "无效的经度值: " "经度值超出范围: " r)

/-- `DataValidator._parse_date`: try the five formats in order; the month-day
formats get the current year substituted. -/
def parseDate (lib : PyLib) (s : String) : Option Nat :=
  if s == "" then none
  else
    let tryFmt := fun (fmt : String) =>
      match lib.strptime fmt s with
      | some d => some (if fmt == "%m-%d" || fmt == "%m/%d" then lib.setYear lib.nowYear d else d)
      | none => none
    match tryFmt "%Y-%m-%d" with
    | some d => some d
    | none =>
      match tryFmt "%Y-%m-%d %H:%M:%S" with
      | some d => some d
      | none =>
        match tryFmt "%Y/%m/%d" with
        | some d => some d
        | none =>
          match tryFmt "%m-%d" with
          | some d => some d
          | none => tryFmt "%m/%d"

/-- `DataValidator._validate_dates`. -/
def validateDates (lib : PyLib) (d : JobData) (r : ValidationResult) : ValidationResult :=
  let r :=
    match d.issueDateString with
    | none => r
    | some s =>
      if s == "" then r
      else
        match parseDate lib s with
        | some dt => r.setField "publish_time" (CleanValue.vdate dt)
        | none => r.addWarning ("无法解析发布日期: " ++ s)
  match d.updateDateTime with
  | none => r
  | some s =>
    if s == "" then r
    else
      match parseDate lib s with
      | some dt => r.setField "update_time" (CleanValue.vdate dt)
      | none => r

/-- `DataValidator._clean_url`. -/
def cleanUrl (u : String) : String :=
  if u == "" then ""
  else
    let u := mkStr (stripChars u.data)
    if u.startsWith "//" then "https:" ++ u
    else if u.startsWith "/" then "https://51job.com" ++ u
    else u

/-- `DataValidator._validate_urls`. -/
def validateUrls (d : JobData) (r : ValidationResult) : ValidationResult :=
  let r :=
    match d.jobHref with
    | none => r
    | some s => if s == "" then r else r.setField "job_url" (CleanValue.vstr (cleanUrl s))
  match d.companyHref with
  | none => r
  | some s => if s == "" then r else r.setField "company_url" (CleanValue.vstr (cleanUrl s))

/-- `DataValidator._add_metadata`. -/
def addMetadata (d : JobData) (r : ValidationResult) : ValidationResult :=
  ((r.setField "job_description" (cleanStringV d.jobDescribe)).setField "industry"
    (cleanStringV d.industryType1Str)).setField "raw_data" (CleanValue.vraw d)

/-- `DataValidator.validate_job_data`: the fresh result is threaded through
every check in source order.  The only runtime exception in the pipeline (the
missing-`parse_salary` `AttributeError`) is caught inside `_validate_salary`
itself, so the outer `except` that would add a hard error is unreachable and
the embedding is total. -/
def validateJobData (lib : PyLib) (d : JobData) : ValidationResult :=
  addMetadata d
    (validateUrls d
      (validateDates lib d
        (validateCoordinates lib d
          (validateTags lib d
            (validateEducation d
              (validateWorkExperience d
                (validateSalary d
                  (validateLocation d
                    (validateCompanyName d
                      (validateJobName d
                        (validateJobId d
                          (validateRequiredFields d
                            ⟨true, [], [], []⟩))))))))))))

/-! ## src/utils/database_manager.py — `insert_job_listing` / `batch_insert_job_listings`

Rows of `job_listings` are identified by their unique `job_id` column, the only
field that participates in the conflict logic, so storage is embedded as the
list of stored `job_id`s.  The backend is the configured default (MySQL), where
a duplicate-key `IntegrityError` message contains `"Duplicate entry"`, which is
what both handlers test for.  `get_session` commits the open transaction when
the `with` block exits normally and rolls it back on an exception. -/

/-- `DatabaseManager.insert_job_listing`: flushing a row whose `job_id` already
exists raises `IntegrityError`; the handler returns `False` ("skipped") and the
session rollback leaves storage unchanged.  Otherwise the commit at the end of
`get_session` adds the row and the function returns `True`. -/
def insertJobListing (stored : List String) (jobId : String) : Bool × List String :=
  if stored.contains jobId then (false, stored) else (true, stored ++ [jobId])

/-- Loop state of `batch_insert_job_listings`: the two counters plus the rows
flushed in the currently open transaction (discarded by `session.rollback()`). -/
structure BatchState where
  inserted : Nat
  skipped : Nat
  txn : List String
deriving DecidableEq

/-- One iteration of the `batch_insert_job_listings` loop.  `session.flush()`
raises the duplicate-key `IntegrityError` when the row's `job_id` is already in
the table — committed earlier or flushed inside this same open transaction —
and the handler then calls `session.rollback()`, which also discards every row
flushed so far in the transaction. -/
def batchStep (stored : List String) (st : BatchState) (jobId : String) : BatchState :=
  if (stored ++ st.txn).contains jobId then
    { inserted := st.inserted, skipped := st.skipped + 1, txn := [] }
  else
    { inserted := st.inserted + 1, skipped := st.skipped, txn := st.txn ++ [jobId] }

/-- `DatabaseManager.batch_insert_job_listings`: returns
`(inserted_count, skipped_count)` and the storage after `get_session`'s final
commit, which persists only the rows still in the open transaction. -/
def batchInsertJobListings (stored : List String) (batch : List String) :
    (Nat × Nat) × List String :=
  if batch.isEmpty then ((0, 0), stored)
  else
    let st := batch.foldl (batchStep stored) ⟨0, 0, []⟩
    ((st.inserted, st.skipped), stored ++ st.txn)

/-! ## src/jobSearch.py — `JobSearch.search_jobs` (with src/crawler_config.py)

The network is an oracle `respond : Nat → HttpResponse` giving the response to
the n-th HTTP request issued; `requests.get` exceptions are not exercised by
the scenarios below and are not modelled.  The vendored `getAcwScV2` transform
(imported from `acwCookie`, not part of this repository) is a parameter, and
`CookieManager.get_cookies`/`refresh_cookies` is modelled as the optional
replacement cookie jar a refresh would install (`none` = the instance was
built with caller-supplied cookies and `refresh_cookies()` returns `False`). -/

/-- `RETRY_CONFIG['max_retries']` (src/crawler_config.py line 15). -/
def RETRY_CONFIG_max_retries : Nat := 5

/-- `RETRY_CONFIG['anti_spider_codes']` (src/crawler_config.py line 17). -/
def RETRY_CONFIG_anti_spider_codes : List Nat := [403, 429, 503, 521]

/-- The part of a `requests.Response` that `search_jobs` inspects. -/
structure HttpResponse where
  status_code : Nat
  text : String
deriving DecidableEq

/-- `[A-F0-9]`, the character class of the challenge-token regex. -/
def isHexUpper (c : Char) : Bool := ('A' ≤ c && c ≤ 'F') || ('0' ≤ c && c ≤ '9')

/-- Match `re.search(r"var arg1='([A-F0-9]+)';", ·)` at the head of `s`:
the literal prefix, then a maximal nonempty run of `[A-F0-9]` (greediness is
exact because `'` is not in the class), then `';`. -/
def matchArg1At (s : List Char) : Option (List Char) :=
  let lit := "var arg1='".data
  if lit.isPrefixOf s then
    let rest := s.drop lit.length
    let run := rest.takeWhile isHexUpper
    if run.isEmpty then none
    else if "';".data.isPrefixOf (rest.drop run.length) then some run
    else none
  else none

/-- Leftmost `re.search(r"var arg1='([A-F0-9]+)';", ·)` over the body. -/
def findArg1 : List Char → Option (List Char)
  | [] => none
  | s@(_ :: t) =>
    match matchArg1At s with
    | some r => some r
    | none => findArg1 t

/-- Mutable state of a `JobSearch` instance across the retry loop. -/
structure SearchState where
  cookies : List (String × String)
  requests : Nat
  cookieRefreshed : Bool
deriving DecidableEq

/-- The acceptance test of one loop iteration: no challenge token in the body,
HTTP 200, non-blank text, and no `'error'` in the lowercased body — exactly the
conditions under which `search_jobs` returns the response. -/
def isAccepted (r : HttpResponse) : Bool :=
  (findArg1 r.text.data).isNone && r.status_code == 200 &&
    !(stripChars r.text.data).isEmpty && !containsSubList "error".data (lowerChars r.text.data)

/-- `if not cookie_refreshed: if self.refresh_cookies(): cookie_refreshed =
True`, guarded by `cond` (both refresh sites of the loop share this shape).
`refresh_cookies` succeeds — installing `CookieManager.refresh_cookies()`'s
jar — exactly when the instance holds a cookie manager. -/
def maybeRefresh (cookieMgr : Option (List (String × String))) (cond : Bool)
    (st : SearchState) : SearchState :=
  if cond && !st.cookieRefreshed then
    match cookieMgr with
    | some fresh => { st with cookies := fresh, cookieRefreshed := true }
    | none => st
  else st

/-- The body of `for attempt in range(max_retries)` in `search_jobs`, with
`fuel` = remaining attempts (so the current 0-based `attempt` is
`maxRetries - fuel`).  Per iteration: optionally refresh cookies once half the
budget is gone, issue the request, set `acw_sc__v2` and retry on a challenge
token, return on an accepted 200 body, otherwise (after the anti-bot cooldown
and its own refresh attempt) fall through to the next attempt.  Falling out of
the loop raises `Exception("Max Retry Exceeded!")`. -/
def searchLoop (getAcw : String → String) (cookieMgr : Option (List (String × String)))
    (respond : Nat → HttpResponse) (maxRetries : Nat) :
    Nat → SearchState → Except String HttpResponse × SearchState
  | 0, st => (Except.error "Max Retry Exceeded!", st)
  | fuel + 1, st =>
    let attempt := maxRetries - (fuel + 1)
    let st := maybeRefresh cookieMgr (decide (maxRetries / 2 ≤ attempt)) st
    let resp := respond st.requests
    let st := { st with requests := st.requests + 1 }
    match findArg1 resp.text.data with
    | some tok =>
      searchLoop getAcw cookieMgr respond maxRetries fuel
        { st with cookies := setKey "acw_sc__v2" (getAcw (mkStr tok)) st.cookies }
    | none =>
      if resp.status_code == 200 then
        if !(stripChars resp.text.data).isEmpty &&
            !containsSubList "error".data (lowerChars resp.text.data) then
          (Except.ok resp, st)
        else searchLoop getAcw cookieMgr respond maxRetries fuel st
      else
        searchLoop getAcw cookieMgr respond maxRetries fuel
          (maybeRefresh cookieMgr
            (RETRY_CONFIG_anti_spider_codes.contains resp.status_code) st)

/-- `JobSearch.search_jobs` started with the instance's cookie jar. -/
def searchJobs (getAcw : String → String) (cookieMgr : Option (List (String × String)))
    (respond : Nat → HttpResponse) (cookies : List (String × String)) :
    Except String HttpResponse × SearchState :=
  searchLoop getAcw cookieMgr respond RETRY_CONFIG_max_retries RETRY_CONFIG_max_retries
    ⟨cookies, 0, false⟩

/-! ## src/utils/retry_handler.py — `RetryHandler.calculate_delay`

All delay parameters here are small dyadic values, on which binary floating
point is exact, so ℚ models the arithmetic faithfully. -/

/-- `RetryConfig` (src/utils/retry_handler.py lines 18-26). -/
structure RetryConfig where
  max_attempts : Nat := 3
  base_delay : ℚ := 1
  max_delay : ℚ := 60
  exponential_base : ℚ := 2
  jitter : Bool := true
  backoff_factor : ℚ := 1
deriving DecidableEq

/-- The delay `calculate_delay` computes before the jitter step (1-indexed
attempt): `min(base_delay * exponential_base^(attempt-1) * backoff_factor,
max_delay)`. -/
def rawDelay (c : RetryConfig) (attempt : Nat) : ℚ :=
  min (c.base_delay * c.exponential_base ^ (attempt - 1) * c.backoff_factor) c.max_delay

/-- `RetryHandler.calculate_delay`, with the value `random.uniform(-j, j)`
drawn for the jitter step (`j` = 10% of the capped delay) passed explicitly. -/
def calculateDelay (c : RetryConfig) (attempt : Nat) (jitterDraw : ℚ) : ℚ :=
  max 0 (if c.jitter then rawDelay c attempt + jitterDraw else rawDelay c attempt)

/-- `NETWORK_RETRY_CONFIG` (src/utils/retry_handler.py lines 225-231). -/
def NETWORK_RETRY_CONFIG : RetryConfig :=
  { max_attempts := 5, base_delay := 2, max_delay := 120, exponential_base := 2, jitter := true }

/-! ## src/crawler/scheduler.py — `CrawlTask` lifecycle

The worker pool, the spider and the wall clock are external: timestamps are
explicit `Nat` arguments, and the per-(keyword, city) crawl outcome and the
shutdown flag observed before each pair are oracles.  `create_task`'s id
autogeneration (`time + random suffix`) is external randomness, so the id is a
plain argument. -/

/-- `TaskStatus` (src/crawler/scheduler.py lines 28-34). -/
inductive TaskStatus : Type where
  | pending
  | running
  | completed
  | failed
  | cancelled
deriving DecidableEq

/-- A value of the `results` dict: the two job counters, or one of the opaque
nested component statistics (`spider_stats` / `processor_stats`). -/
inductive ResultVal : Type where
  | count : Nat → ResultVal
  | stats : ResultVal
deriving DecidableEq

/-- `CrawlTask` (src/crawler/scheduler.py lines 37-48). -/
structure CrawlTask where
  task_id : String
  keywords : List String
  cities : List String
  status : TaskStatus
  created_at : Nat
  started_at : Option Nat
  completed_at : Option Nat
  error_message : Option String
  results : List (String × ResultVal)
deriving DecidableEq

/-- `CrawlTask.is_running`. -/
def CrawlTask.isRunningP (t : CrawlTask) : Bool := t.status == TaskStatus.running

/-- `CrawlTask.is_completed` (completed, failed or cancelled). -/
def CrawlTask.isCompletedP (t : CrawlTask) : Bool :=
  t.status == TaskStatus.completed || t.status == TaskStatus.failed ||
    t.status == TaskStatus.cancelled

/-- The scheduler state the lifecycle operations touch: the task table and the
ids with an outstanding `Future` in `running_futures`. -/
structure SchedulerState where
  tasks : List (String × CrawlTask)
  running_futures : List String
deriving DecidableEq

/-- The `CrawlTask(...)` constructed by `CrawlerScheduler.create_task`. -/
def createTask (task_id : String) (keywords cities : List String) (now : Nat) : CrawlTask :=
  ⟨task_id, keywords, cities, TaskStatus.pending, now, none, none, none, []⟩

/-- `CrawlerScheduler.create_task`: store the fresh task under its id. -/
def createTaskS (st : SchedulerState) (task_id : String) (keywords cities : List String)
    (now : Nat) : SchedulerState :=
  { st with tasks := setKey task_id (createTask task_id keywords cities now) st.tasks }

/-- `CrawlerScheduler.submit_task`: reject unknown, running, or terminal tasks;
otherwise dispatch to the pool (the id joins `running_futures`) and mark the
task Running with a start timestamp. -/
def submitTask (st : SchedulerState) (task_id : String) (now : Nat) : Bool × SchedulerState :=
  match lookupKey task_id st.tasks with
  | none => (false, st)
  | some t =>
    if t.isRunningP then (false, st)
    else if t.isCompletedP then (false, st)
    else
      (true,
        { tasks := setKey task_id
            { t with status := TaskStatus.running, started_at := some now } st.tasks,
          running_futures := st.running_futures ++ [task_id] })

/-- Outcome of one (keyword, city) crawl-process-save cycle inside
`_execute_task`: the counts it adds to jobs_crawled/jobs_saved, or an
exception escaping the cycle. -/
inductive CrawlOutcome : Type where
  | ok : Nat → Nat → CrawlOutcome
  | exc : String → CrawlOutcome
deriving DecidableEq

/-- Result of the pair loop in `_execute_task`. -/
inductive ExecOutcome : Type where
  | interrupted
  | failure : String → ExecOutcome
  | done : Nat → Nat → ExecOutcome
deriving DecidableEq

/-- The `for keyword/for city` loop of `_execute_task`: before each pair the
shutdown event is polled (`shutdown i`); each pair's cycle yields `outcome i`. -/
def execPairs (shutdown : Nat → Bool) (outcome : Nat → CrawlOutcome) :
    Nat → List (String × String) → Nat → Nat → ExecOutcome
  | _, [], crawled, saved => ExecOutcome.done crawled saved
  | i, _ :: rest, crawled, saved =>
    if shutdown i then ExecOutcome.interrupted
    else
      match outcome i with
      | CrawlOutcome.ok c s => execPairs shutdown outcome (i + 1) rest (crawled + c) (saved + s)
      | CrawlOutcome.exc m => ExecOutcome.failure m

/-- The (keyword, city) pairs a task iterates, in loop order. -/
def pairsOf (t : CrawlTask) : List (String × String) :=
  t.keywords.flatMap (fun kw => t.cities.map (fun c => (kw, c)))

/-- `CrawlerScheduler._execute_task` acting on its task: observed shutdown
marks the task Cancelled (the early return sets no completion timestamp); an
exception marks it Failed with the message; otherwise Completed with the
four-entry `results` dict. -/
def executeTask (shutdown : Nat → Bool) (outcome : Nat → CrawlOutcome) (t : CrawlTask)
    (now : Nat) : CrawlTask :=
  match execPairs shutdown outcome 0 (pairsOf t) 0 0 with
  | ExecOutcome.interrupted => { t with status := TaskStatus.cancelled }
  | ExecOutcome.failure m =>
    { t with status := TaskStatus.failed, completed_at := some now, error_message := some m }
  | ExecOutcome.done c s =>
    { t with
      status := TaskStatus.completed
      completed_at := some now
      results := [("jobs_crawled", ResultVal.count c), ("jobs_saved", ResultVal.count s),
                  ("spider_stats", ResultVal.stats), ("processor_stats", ResultVal.stats)] }

/-- `CrawlerScheduler.cancel_task`.  `futureCancelable` is what
`future.cancel()` reports for a queued task (`False` once it started running). -/
def cancelTask (st : SchedulerState) (task_id : String) (futureCancelable : Bool) (now : Nat) :
    Bool × SchedulerState :=
  match lookupKey task_id st.tasks with
  | none => (false, st)
  | some t =>
    let t2 := { t with status := TaskStatus.cancelled, completed_at := some now }
    if t.isCompletedP then (false, st)
    else if st.running_futures.contains task_id then
      if futureCancelable then (true, { st with tasks := setKey task_id t2 st.tasks })
      else (false, st)
    else (true, { st with tasks := setKey task_id t2 st.tasks })

/-! ## src/utils/proxy_manager.py — `ProxyInfo.is_healthy` / `ProxyManager.get_proxy`

`last_used`/`last_checked` bookkeeping and the network probe of
`health_check_all` play no part in selection logic; the sweep the manager may
run before selecting (`_should_health_check`) is an oracle transforming the
pool, and `random.choice` is an oracle index. -/

/-- `ProxyStatus` (src/utils/proxy_manager.py lines 21-27). -/
inductive ProxyStatus : Type where
  | active
  | inactive
  | failedS
  | testing
  | banned
deriving DecidableEq

/-- The fields of `ProxyInfo` that selection logic reads. -/
structure ProxyInfo where
  host : String
  port : Nat
  protocol : String
  status : ProxyStatus
  success_count : Nat
  failure_count : Nat
  response_time : Option ℚ
deriving DecidableEq

/-- `ProxyInfo.success_rate`. -/
def ProxyInfo.successRate (p : ProxyInfo) : ℚ :=
  if p.success_count + p.failure_count = 0 then 0
  else (p.success_count : ℚ) / ((p.success_count : ℚ) + (p.failure_count : ℚ))

/-- `ProxyInfo.is_healthy`: Active, success rate ≥ 0.7, fewer than 10 failures. -/
def ProxyInfo.isHealthyP (p : ProxyInfo) : Bool :=
  p.status == ProxyStatus.active && decide ((7 : ℚ) / 10 ≤ p.successRate) &&
    decide (p.failure_count < 10)

/-- `ProxyManager._get_proxy_round_robin` over the healthy sublist. -/
def getProxyRoundRobin (proxies : List ProxyInfo) (idx : Nat) : Option ProxyInfo × Nat :=
  if proxies.isEmpty then (none, idx)
  else (proxies.get? (idx % proxies.length), (idx + 1) % proxies.length)

/-- The scoring function of `_get_best_performance_proxy`.  `proxy.response_time
or 999.0` is Python truthiness: `None` *and* `0.0` both fall back to 999. -/
def scoreProxy (p : ProxyInfo) : ℚ :=
  let rt := match p.response_time with
    | none => 999
    | some v => if v = 0 then 999 else v
  p.successRate * (7 / 10) + 1 / (1 + rt) * (3 / 10)

/-- `ProxyManager._get_best_performance_proxy`: Python `max(..., key=score)`,
which keeps the earliest element on ties. -/
def bestPerformanceProxy : List ProxyInfo → Option ProxyInfo
  | [] => none
  | h :: t => some (t.foldl (fun best p => if scoreProxy best < scoreProxy p then p else best) h)

/-- `ProxyManager.get_proxy`: returns the selected proxy together with the
(possibly health-checked) pool and the new round-robin index.  `healthCheck`
is the status-mutating sweep `health_check_all` runs when `checkDue`
(`_should_health_check()`), and `randPick` drives `random.choice`. -/
def getProxy (enabled : Bool) (checkDue : Bool) (healthCheck : List ProxyInfo → List ProxyInfo)
    (proxies : List ProxyInfo) (idx : Nat) (strategy : String) (randPick : Nat) :
    Option ProxyInfo × List ProxyInfo × Nat :=
  if !enabled then (none, proxies, idx)
  else
    let proxies := if checkDue then healthCheck proxies else proxies
    let healthy := proxies.filter ProxyInfo.isHealthyP
    if healthy.isEmpty then (none, proxies, idx)
    else if strategy == "round_robin" then
      let (sel, idx2) := getProxyRoundRobin healthy idx
      (sel, proxies, idx2)
    else if strategy == "random" then
      (healthy.get? (randPick % healthy.length), proxies, idx)
    else if strategy == "best_performance" then
      (bestPerformanceProxy healthy, proxies, idx)
    else
      let (sel, idx2) := getProxyRoundRobin healthy idx
      (sel, proxies, idx2)

/-! ## src/crawler_monitor.py — `CrawlerMonitor`

Timestamps are seconds as `Nat` (`timedelta(hours=1)` = 3600); the bounded
response-time window and the hourly buckets feed no health decision and are
not modelled.  The success-rate arithmetic is exact on these values. -/

/-- The counters of `CrawlerMonitor.stats` that drive `is_health_critical`. -/
structure MonitorState where
  total_requests : Nat
  successful_requests : Nat
  failed_requests : Nat
  empty_responses : Nat
  anti_spider_hits : Nat
  consecutive_failures : Nat
  total_jobs_crawled : Nat
  last_success_time : Option Nat
  error_types : List (String × Nat)
deriving DecidableEq

/-- The freshly constructed monitor. -/
def monitorInit : MonitorState := ⟨0, 0, 0, 0, 0, 0, 0, none, []⟩

/-- Bump a histogram counter (`defaultdict(int)` increment). -/
def bumpKey (k : String) (m : List (String × Nat)) : List (String × Nat) :=
  match lookupKey k m with
  | some n => setKey k (n + 1) m
  | none => m ++ [(k, 1)]

/-- `CrawlerMonitor.record_request`. -/
def recordRequest (st : MonitorState) (now : Nat) (success : Bool) (errorType : Option String)
    (jobsCount : Nat) : MonitorState :=
  let st := { st with total_requests := st.total_requests + 1 }
  if success then
    let st :=
      { st with
        successful_requests := st.successful_requests + 1
        total_jobs_crawled := st.total_jobs_crawled + jobsCount
        last_success_time := some now
        consecutive_failures := 0 }
    if jobsCount = 0 then { st with empty_responses := st.empty_responses + 1 } else st
  else
    let st :=
      { st with
        failed_requests := st.failed_requests + 1
        consecutive_failures := st.consecutive_failures + 1 }
    match errorType with
    | none => st
    | some e =>
      if e == "" then st
      else
        let st := { st with error_types := bumpKey e st.error_types }
        if containsSubList "anti_spider".data (lowerChars e.data) ||
            containsSubList "blocked".data (lowerChars e.data) then
          { st with anti_spider_hits := st.anti_spider_hits + 1 }
        else st

/-- `CrawlerMonitor.get_success_rate` (a percentage). -/
def getSuccessRate (st : MonitorState) : ℚ :=
  if st.total_requests = 0 then 0
  else (st.successful_requests : ℚ) / (st.total_requests : ℚ) * 100

/-- `CrawlerMonitor.is_health_critical`: `(critical?, reason)`. -/
def isHealthCritical (st : MonitorState) (now : Nat) : Bool × String :=
  if 10 < st.consecutive_failures then (true, "连续失败次数过多")
  else if 20 < st.total_requests ∧ getSuccessRate st < 30 then (true, "成功率过低")
  else if 10 < st.total_requests ∧
      (1 : ℚ) / 2 < (st.anti_spider_hits : ℚ) / (st.total_requests : ℚ) then
    (true, "反爬虫命中率过高")
  else
    let stale : Bool :=
      match st.last_success_time with
      | some t => decide (3600 < now - t)
      | none => false
    if stale then (true, "长时间无成功请求")
    else (false, "健康状况良好")

/-- One `record_request` call site: its wall-clock time and arguments. -/
structure ReqCall where
  now : Nat
  success : Bool
  errorType : Option String
  jobsCount : Nat
deriving DecidableEq

/-- A sequence of `record_request` calls applied to a monitor state. -/
def applyCalls (st : MonitorState) (calls : List ReqCall) : MonitorState :=
  calls.foldl (fun s c => recordRequest s c.now c.success c.errorType c.jobsCount) st

/-! ## src/main.py — province-code expansion in `search` -/

/-- `province_codes` (src/main.py lines 38-71), in dict insertion order. -/
def province_codes : List (String × String) :=
  [("010000", "北京"), ("020000", "上海"), ("030000", "广东省"), ("040000", "深圳"),
   ("050000", "天津"), ("060000", "重庆"), ("070000", "江苏省"), ("080000", "浙江省"),
   ("090000", "四川省"), ("100000", "海南省"), ("110000", "福建省"), ("120000", "山东省"),
   ("130000", "江西省"), ("140000", "广西"), ("150000", "安徽省"), ("160000", "河北省"),
   ("170000", "河南省"), ("180000", "湖北省"), ("190000", "湖南省"), ("200000", "陕西省"),
   ("210000", "山西省"), ("220000", "黑龙江省"), ("230000", "辽宁省"), ("240000", "吉林省"),
   ("250000", "云南省"), ("260000", "贵州省"), ("270000", "甘肃省"), ("280000", "内蒙古"),
   ("290000", "宁夏"), ("300000", "西藏"), ("310000", "新疆"), ("320000", "青海省")]

/-- `list(province_codes.keys())`. -/
def provinceCodeList : List String := province_codes.map Prod.fst

/-- `if '000000' in cities: cities = list(province_codes.keys())`
(src/main.py lines 86-88). -/
def expandCities (cities : List String) : List String :=
  if cities.contains "000000" then provinceCodeList else cities

/-- The (keyword, city) pairs the `for kw in kws: for city in cities:` loop of
`search` iterates, after the sentinel expansion. -/
def searchPairs (kws cities : List String) : List (String × String) :=
  kws.flatMap (fun kw => (expandCities cities).map (fun c => (kw, c)))

/-! ## src/51jobcrawler.py — chunked export to the Feishu document base

`for i in range(1, len(fields)//400+2): fs.add_records(db_id, table_id,
fields[400*(i-1):400*i]); time.sleep(0.3)` — each iteration issues one
batch-create call and then sleeps. -/

/-- An observable event of the export loop. -/
inductive ExportEvent : Type where
  | call : Nat → ExportEvent
  | sleep
deriving DecidableEq

/-- The record chunks `fields[400*(i-1):400*i]` for `i` in
`range(1, len(fields)//400+2)`. -/
def feishuBatches {α : Type} (fields : List α) : List (List α) :=
  ((List.range (fields.length / 400 + 1)).map (fun j => j + 1)).map
    (fun i => ((fields.drop (400 * (i - 1))).take 400))

/-- The event trace of the export loop: one `add_records` call per chunk, each
followed by a `time.sleep(0.3)`. -/
def feishuExportTrace {α : Type} (fields : List α) : List ExportEvent :=
  (feishuBatches fields).flatMap (fun b => [ExportEvent.call b.length, ExportEvent.sleep])

/-! ## Remaining definitions used by the statements below -/

/-- The validity discipline of `ValidationResult`: the flag agrees with
emptiness of the error list. -/
def ValidOk (r : ValidationResult) : Prop := r.is_valid = r.errors.isEmpty

/-- A concrete `PyLib` instance for closed evaluations (its choices are
irrelevant to the properties evaluated with it). -/
def trivLib : PyLib :=
  ⟨fun _ _ => none, fun _ d => d, 2026, fun _ => none, fun _ => "[]", fun _ => none, fun _ => ""⟩

/-- A well-formed raw record whose `provideSalaryString` is `"15-25K"`. -/
def rec1525 : JobData :=
  { jobId := some "123", jobName := some "Engineer", companyName := some "Acme",
    jobAreaString := some "上海", provideSalaryString := some "15-25K" }

/-- A response body carrying the spec's crafted challenge token. -/
def challengeBody : String :=
  "<html><script>var arg1='1A2B3C4D5E6F70819293A4B5C6D7E8F9';</script></html>"

/-- A normal 200 JSON body (non-blank, no `'error'` substring). -/
def goodJsonBody : String := "\x7b\"status\":\"1\",\"resultbody\":\x7b\"job\":\x7b\x7d\x7d\x7d"

/-- The oracle of the spec's challenge scenario: the first request draws the
challenge body, the retried request draws the normal JSON body. -/
def challengeThenGood (n : Nat) : HttpResponse :=
  if n = 0 then ⟨200, challengeBody⟩ else ⟨200, goodJsonBody⟩

/-! ## Theorems.  First, the validity discipline of the Data Validator. -/

theorem ratFloor_eq (q : ℚ) : ratFloor q = ⌊q⌋ := by
  rw [ratFloor, Rat.floor_def, Int.fdiv_eq_ediv _ (by positivity)]

theorem validOk_addError (r : ValidationResult) (m : String) : ValidOk (r.addError m) := by
  simp [ValidOk, ValidationResult.addError]

theorem validOk_addWarning (r : ValidationResult) (m : String) (h : ValidOk r) :
    ValidOk (r.addWarning m) := h

theorem validOk_setField (r : ValidationResult) (k : String) (v : CleanValue) (h : ValidOk r) :
    ValidOk (r.setField k v) := h

theorem validOk_ifError (c : Bool) (r : ValidationResult) (m : String) (h : ValidOk r) :
    ValidOk (if c then r else r.addError m) := by
  cases c with
  | true => exact h
  | false => exact validOk_addError r m

theorem validOk_validateRequiredFields (d : JobData) (r : ValidationResult) (h : ValidOk r) :
    ValidOk (validateRequiredFields d r) := by
  simp only [validateRequiredFields, List.foldl]
  exact validOk_ifError _ _ _ (validOk_ifError _ _ _ (validOk_ifError _ _ _
    (validOk_ifError _ _ _ h)))

theorem validOk_validateJobId (d : JobData) (r : ValidationResult) (h : ValidOk r) :
    ValidOk (validateJobId d r) := by
  rw [validateJobId]
  cases d.jobId with
  | none => exact h
  | some s =>
    dsimp only
    split
    · exact h
    · split
      · exact validOk_addError _ _
      · exact validOk_setField _ _ _ h

theorem validOk_cleanLongName (k w s : String) (r : ValidationResult) (h : ValidOk r) :
    ValidOk (cleanLongName k w s r) := by
  rw [cleanLongName]
  split
  · exact validOk_setField _ _ _ (validOk_addWarning _ _ h)
  · exact validOk_setField _ _ _ h

theorem validOk_validateJobName (d : JobData) (r : ValidationResult) (h : ValidOk r) :
    ValidOk (validateJobName d r) := by
  rw [validateJobName]
  cases d.jobName with
  | none => exact h
  | some s =>
    dsimp only
    split
    · exact h
    · exact validOk_cleanLongName _ _ _ _ h

theorem validOk_validateCompanyName (d : JobData) (r : ValidationResult) (h : ValidOk r) :
    ValidOk (validateCompanyName d r) := by
  rw [validateCompanyName]
  apply validOk_setField
  apply validOk_setField
  cases pyOr d.companyName d.fullCompanyName with
  | none => exact h
  | some s =>
    dsimp only
    split
    · exact h
    · exact validOk_cleanLongName _ _ _ _ h

theorem validOk_validateLocation (d : JobData) (r : ValidationResult) (h : ValidOk r) :
    ValidOk (validateLocation d r) := by
  rw [validateLocation]
  apply validOk_setField
  cases d.jobAreaString with
  | none => exact h
  | some s =>
    dsimp only
    split
    · exact h
    · exact validOk_setField _ _ _ h

theorem validOk_validateSalary (d : JobData) (r : ValidationResult) (h : ValidOk r) :
    ValidOk (validateSalary d r) := by
  rw [validateSalary]
  cases d.provideSalaryString with
  | none => exact h
  | some s =>
    dsimp only
    split
    · exact h
    · exact validOk_addWarning _ _ (validOk_setField _ _ _ h)

theorem validOk_validateWorkExperience (d : JobData) (r : ValidationResult) (h : ValidOk r) :
    ValidOk (validateWorkExperience d r) := validOk_setField _ _ _ h

theorem validOk_validateEducation (d : JobData) (r : ValidationResult) (h : ValidOk r) :
    ValidOk (validateEducation d r) := validOk_setField _ _ _ h

theorem validOk_validateTags (lib : PyLib) (d : JobData) (r : ValidationResult) (h : ValidOk r) :
    ValidOk (validateTags lib d r) := by
  rw [validateTags]
  cases d.jobTags with
  | tlist ts => exact validOk_setField _ _ _ h
  | tstr s =>
    dsimp only
    split
    · split
      · exact validOk_setField _ _ _ h
      · exact validOk_setField _ _ _ h
    · exact validOk_setField _ _ _ h
  | other => exact validOk_setField _ _ _ h

theorem validOk_validateOneCoord (lib : PyLib) (v : Option String) (b : ℚ) (k m1 m2 : String)
    (r : ValidationResult) (h : ValidOk r) : ValidOk (validateOneCoord lib v b k m1 m2 r) := by
  rw [validateOneCoord.eq_def]
  cases v with
  | none => exact h
  | some s =>
    dsimp only
    split
    · exact h
    · cases lib.pyFloat s with
      | none => exact validOk_addWarning _ _ h
      | some x =>
        dsimp only
        split
        · exact validOk_setField _ _ _ h
        · exact validOk_addWarning _ _ h

theorem validOk_validateCoordinates (lib : PyLib) (d : JobData) (r : ValidationResult)
    (h : ValidOk r) : ValidOk (validateCoordinates lib d r) := by
  rw [validateCoordinates]
  exact validOk_validateOneCoord _ _ _ _ _ _ _ (validOk_validateOneCoord _ _ _ _ _ _ _ h)

theorem validOk_validateDates (lib : PyLib) (d : JobData) (r : ValidationResult)
    (h : ValidOk r) : ValidOk (validateDates lib d r) := by
  rw [validateDates]
  have h2 : ∀ r2 : ValidationResult, ValidOk r2 → ValidOk
      (match d.updateDateTime with
       | none => r2
       | some s =>
         if s == "" then r2
         else
           match parseDate lib s with
           | some dt => r2.setField "update_time" (CleanValue.vdate dt)
           | none => r2) := by
    intro r2 hr2
    cases d.updateDateTime with
    | none => exact hr2
    | some s =>
      dsimp only
      split
      · exact hr2
      · cases parseDate lib s with
        | none => exact hr2
        | some dt => exact validOk_setField _ _ _ hr2
  apply h2
  cases d.issueDateString with
  | none => exact h
  | some s =>
    dsimp only
    split
    · exact h
    · cases parseDate lib s with
      | none => exact validOk_addWarning _ _ h
      | some dt => exact validOk_setField _ _ _ h

theorem validOk_validateUrls (d : JobData) (r : ValidationResult) (h : ValidOk r) :
    ValidOk (validateUrls d r) := by
  rw [validateUrls]
  have h2 : ∀ r2 : ValidationResult, ValidOk r2 → ValidOk
      (match d.companyHref with
       | none => r2
       | some s =>
         if s == "" then r2 else r2.setField "company_url" (CleanValue.vstr (cleanUrl s))) := by
    intro r2 hr2
    cases d.companyHref with
    | none => exact hr2
    | some s =>
      dsimp only
      split
      · exact hr2
      · exact validOk_setField _ _ _ hr2
  apply h2
  cases d.jobHref with
  | none => exact h
  | some s =>
    dsimp only
    split
    · exact h
    · exact validOk_setField _ _ _ h

theorem validOk_addMetadata (d : JobData) (r : ValidationResult) (h : ValidOk r) :
    ValidOk (addMetadata d r) := validOk_setField _ _ _ (validOk_setField _ _ _
      (validOk_setField _ _ _ h))

theorem validOk_validateJobData (lib : PyLib) (d : JobData) :
    ValidOk (validateJobData lib d) := by
  rw [validateJobData]
  exact validOk_addMetadata _ _ (validOk_validateUrls _ _ (validOk_validateDates _ _ _
    (validOk_validateCoordinates _ _ _ (validOk_validateTags _ _ _
      (validOk_validateEducation _ _ (validOk_validateWorkExperience _ _
        (validOk_validateSalary _ _ (validOk_validateLocation _ _
          (validOk_validateCompanyName _ _ (validOk_validateJobName _ _
            (validOk_validateJobId _ _ (validOk_validateRequiredFields _ _ rfl))))))))))))

/-- C10: for every raw record and library instantiation, the result of
`validate_job_data` is valid exactly when its error list is empty — warnings
never affect validity, because the fresh result starts valid with no errors
and only `add_error` appends an error and clears the flag. -/
theorem claim_c10_validator_validity_invariant (lib : PyLib) (d : JobData) :
    (validateJobData lib d).is_valid = true ↔ (validateJobData lib d).errors = [] := by
  have h := validOk_validateJobData lib d
  rw [ValidOk] at h
  rw [h, List.isEmpty_iff]

/-- C1: contrary to the claim, validating a record whose `provideSalaryString`
is `"15-25K"` does NOT store `salary_min`/`salary_max`.  `_validate_salary`
calls `self.parse_salary`, a method that does not exist (`DataValidator`
defines only `_parse_salary`), so every non-empty salary text raises
`AttributeError`, which the handler converts into a warning; the record stays
otherwise valid.  The conversion table itself is implemented by the uncalled
`_parse_salary`, which does yield the claimed values — witness the intended
(15, 25), (0.8, 1.7), no-value and no-value results below, against the actual
record-level outcome at the failing input `"15-25K"`. -/
theorem claim_c1_salary_validation_code_bug :
    parseSalary "15-25K" = (some 15, some 25) ∧
    parseSalary "1-2万/年" = (some (4 / 5), some (17 / 10)) ∧
    parseSalary "面议" = (none, none) ∧
    parseSalary "优厚" = (none, none) ∧
    lookupKey "salary_min" (validateJobData trivLib rec1525).cleaned_data = none ∧
    lookupKey "salary_max" (validateJobData trivLib rec1525).cleaned_data = none ∧
    lookupKey "salary_text" (validateJobData trivLib rec1525).cleaned_data =
      some (CleanValue.vstr "15-25K") ∧
    (validateJobData trivLib rec1525).warnings =
      ["薪资解析失败: 15-25K, 错误: 'DataValidator' object has no attribute 'parse_salary'"] ∧
    (validateJobData trivLib rec1525).errors = [] ∧
    (validateJobData trivLib rec1525).is_valid = true := by
  refine ⟨?_, ?_, ?_, ?_, ?_⟩
  · have h1 : findIntPair "-".data "千/月".data (stripChars "15-25K".data) = none := by decide
    have h2 : findIntPair "-".data "万/年".data (stripChars "15-25K".data) = none := by decide
    have h3 : findIntPair "-".data "K".data (stripChars "15-25K".data) = some (15, 25) := by
      decide
    rw [parseSalary, if_neg (by decide), if_neg (by decide)]
    simp only [h1, h2, h3]
    norm_num
  · have h1 : findIntPair "-".data "千/月".data (stripChars "1-2万/年".data) = none := by decide
    have h2 : findIntPair "-".data "万/年".data (stripChars "1-2万/年".data) = some (1, 2) := by
      decide
    rw [parseSalary, if_neg (by decide), if_neg (by decide)]
    simp only [h1, h2]
    norm_num [pyRound1, ratFloor_eq]
  · rw [parseSalary, if_neg (by decide), if_pos (by decide)]
  · have h1 : findIntPair "-".data "千/月".data (stripChars "优厚".data) = none := by decide
    have h2 : findIntPair "-".data "万/年".data (stripChars "优厚".data) = none := by decide
    have h3 : findIntPair "-".data "K".data (stripChars "优厚".data) = none := by decide
    have h4 : findDecPair "万/月".data (stripChars "优厚".data) = none := by decide
    have h5 : findIntPair "千-".data "万/月".data (stripChars "优厚".data) = none := by decide
    rw [parseSalary, if_neg (by decide), if_neg (by decide)]
    simp only [h1, h2, h3, h4, h5]
  · decide

/-- C2: evaluation at the failing input.  With `d1,d2,d3` already stored,
single-insert of `d1` is the skipped (non-error) outcome and creates no
duplicate row — that part of the claim holds.  But batch-inserting the ten
distinct records `n1..n7,d1,d2,d3` *reports* 7 inserted and 3 skipped while
storage afterwards still holds only `d1,d2,d3`: the `session.rollback()` in
the duplicate handler also rolls back the seven already-flushed new rows, so
the claimed "7 new records present in storage" is false.  (With the duplicates
ordered first, the seven rows do survive — third conjunct.) -/
theorem claim_c2_batch_insert_rollback_bug :
    insertJobListing ["d1", "d2", "d3"] "d1" = (false, ["d1", "d2", "d3"]) ∧
    batchInsertJobListings ["d1", "d2", "d3"]
        ["n1", "n2", "n3", "n4", "n5", "n6", "n7", "d1", "d2", "d3"] =
      ((7, 3), ["d1", "d2", "d3"]) ∧
    batchInsertJobListings ["d1", "d2", "d3"]
        ["d1", "d2", "d3", "n1", "n2", "n3", "n4", "n5", "n6", "n7"] =
      ((7, 3), ["d1", "d2", "d3", "n1", "n2", "n3", "n4", "n5", "n6", "n7"]) := by
  decide

/-- C4: the pre-jitter delay of `calculate_delay` for 1-indexed attempt `n` is
`min(max_delay, base_delay * exponential_base^(n-1) * backoff_factor)`; with
the network preset (base 2.0, exponent 2.0, cap 120, backoff 1.0) attempts
1..5 give exactly 2, 4, 8, 16, 32 seconds, and every attempt ≥ 7 hits the
120-second cap. -/
theorem claim_c4_retry_delay_schedule :
    (∀ c : RetryConfig, ∀ n : Nat,
        rawDelay c n = min c.max_delay
          (c.base_delay * c.exponential_base ^ (n - 1) * c.backoff_factor)) ∧
    rawDelay NETWORK_RETRY_CONFIG 1 = 2 ∧
    rawDelay NETWORK_RETRY_CONFIG 2 = 4 ∧
    rawDelay NETWORK_RETRY_CONFIG 3 = 8 ∧
    rawDelay NETWORK_RETRY_CONFIG 4 = 16 ∧
    rawDelay NETWORK_RETRY_CONFIG 5 = 32 ∧
    ∀ n : Nat, 7 ≤ n → rawDelay NETWORK_RETRY_CONFIG n = 120 := by
  refine ⟨fun c n => by rw [rawDelay]; exact min_comm _ _, ?_, ?_, ?_, ?_, ?_, ?_⟩
  · norm_num [rawDelay, NETWORK_RETRY_CONFIG]
  · norm_num [rawDelay, NETWORK_RETRY_CONFIG]
  · norm_num [rawDelay, NETWORK_RETRY_CONFIG]
  · norm_num [rawDelay, NETWORK_RETRY_CONFIG]
  · norm_num [rawDelay, NETWORK_RETRY_CONFIG]
  · intro n hn
    rw [rawDelay]
    have h1 : (2 : ℚ) ^ 6 ≤ 2 ^ (n - 1) := by
      apply pow_le_pow_right₀ (by norm_num)
      omega
    have h2 : (120 : ℚ) ≤ NETWORK_RETRY_CONFIG.base_delay *
        NETWORK_RETRY_CONFIG.exponential_base ^ (n - 1) * NETWORK_RETRY_CONFIG.backoff_factor := by
      simp only [NETWORK_RETRY_CONFIG]
      norm_num
      nlinarith [h1]
    simp only [NETWORK_RETRY_CONFIG] at h2 ⊢
    rw [min_eq_right h2]

/-- Witness for the hypothesis-bearing part of the C4 theorem: attempt 9 of
the network preset is capped at 120s. -/
theorem claim_c4_witness : rawDelay NETWORK_RETRY_CONFIG 9 = 120 :=
  claim_c4_retry_delay_schedule.2.2.2.2.2.2 9 (by decide)

theorem lookupKey_setKey {α : Type} (k : String) (v : α) (m : List (String × α)) :
    lookupKey k (setKey k v m) = some v := by
  rw [setKey]
  split
  · rename_i hany
    induction m with
    | nil => simp at hany
    | cons p t ih =>
      by_cases hp : p.1 == k
      · simp [lookupKey, List.find?, hp]
      · simp only [List.any_cons, hp, Bool.false_or] at hany
        simpa [lookupKey, List.find?, hp] using ih hany
  · rename_i hany
    have hnone : m.find? (fun p => p.1 == k) = none := by
      rw [List.find?_eq_none]
      intro p hp
      intro hk
      exact hany (List.any_of_mem hp hk)
    rw [lookupKey, List.find?_append, hnone]
    simp [List.find?]

theorem maybeRefresh_requests (cookieMgr : Option (List (String × String))) (cond : Bool)
    (st : SearchState) : (maybeRefresh cookieMgr cond st).requests = st.requests := by
  rw [maybeRefresh.eq_def]
  split
  · cases cookieMgr <;> rfl
  · rfl

/-- If no response among the first `maxR` is accepted, the loop exhausts its
budget and raises. -/
theorem searchLoop_exhaust (getAcw : String → String)
    (cookieMgr : Option (List (String × String))) (respond : Nat → HttpResponse) (maxR : Nat)
    (hresp : ∀ i, i < maxR → isAccepted (respond i) = false) :
    ∀ fuel st, st.requests + fuel = maxR →
      (searchLoop getAcw cookieMgr respond maxR fuel st).1 =
        Except.error "Max Retry Exceeded!" := by
  intro fuel
  induction fuel with
  | zero => intro st _; rfl
  | succ n ih =>
    intro st hinv
    rw [searchLoop]
    have hreq : (maybeRefresh cookieMgr (decide (maxR / 2 ≤ maxR - (n + 1))) st).requests
        = st.requests := maybeRefresh_requests _ _ _
    have hacc : isAccepted (respond st.requests) = false := hresp _ (by omega)
    rw [isAccepted] at hacc
    simp only []
    rw [hreq]
    cases hfind : findArg1 (respond st.requests).text.data with
    | some tok =>
      exact ih _ (by simp only [hreq]; omega)
    | none =>
      simp only [hfind, Option.isNone_none, Bool.true_and] at hacc
      by_cases hstatus : (respond st.requests).status_code == 200
      · simp only [hstatus, Bool.true_and] at hacc
        simp only [hstatus, if_true, hacc, if_false]
        exact ih _ (by simp only [hreq]; omega)
      · simp only [hstatus, if_false]
        exact ih _ (by rw [maybeRefresh_requests]; simp only [hreq]; omega)

/-- C3: (i) on the crafted challenge scenario — first response carries
`var arg1='1A2B3C4D5E6F70819293A4B5C6D7E8F9';`, the retried request returns a
normal 200 JSON body — `search_jobs` returns the JSON response (never the raw
challenge body), issues exactly 2 requests (one extra beyond the first), and
has set the `acw_sc__v2` cookie to the transform of the extracted token;
(ii) `RETRY_CONFIG['max_retries']` is 5, and whenever none of the
`max_retries` responses is usable the loop raises `Max Retry Exceeded!`. -/
theorem claim_c3_challenge_retry :
    (∀ (getAcw : String → String) (cookies0 : List (String × String)),
      (searchJobs getAcw none challengeThenGood cookies0).1 =
        Except.ok ⟨200, goodJsonBody⟩ ∧
      (searchJobs getAcw none challengeThenGood cookies0).2.requests = 2 ∧
      lookupKey "acw_sc__v2" (searchJobs getAcw none challengeThenGood cookies0).2.cookies =
        some (getAcw "1A2B3C4D5E6F70819293A4B5C6D7E8F9")) ∧
    RETRY_CONFIG_max_retries = 5 ∧
    (∀ (getAcw : String → String) (cookieMgr : Option (List (String × String)))
        (respond : Nat → HttpResponse) (cookies0 : List (String × String)),
      (∀ i, i < RETRY_CONFIG_max_retries → isAccepted (respond i) = false) →
      (searchJobs getAcw cookieMgr respond cookies0).1 =
        Except.error "Max Retry Exceeded!") := by
  refine ⟨fun getAcw cookies0 => ⟨rfl, rfl, ?_⟩, rfl, fun getAcw cookieMgr respond cookies0 h =>
    searchLoop_exhaust getAcw cookieMgr respond RETRY_CONFIG_max_retries h
      RETRY_CONFIG_max_retries ⟨cookies0, 0, false⟩ rfl⟩
  show lookupKey "acw_sc__v2"
      (setKey "acw_sc__v2" (getAcw "1A2B3C4D5E6F70819293A4B5C6D7E8F9") cookies0) = _
  exact lookupKey_setKey _ _ _

/-- Witness for C3's hypothesis-bearing exhaustion part: with every response an
HTTP 500, the client raises after its budget. -/
theorem claim_c3_witness :
    (searchJobs id none (fun _ => ⟨500, "x"⟩) []).1 = Except.error "Max Retry Exceeded!" :=
  claim_c3_challenge_retry.2.2 id none (fun _ => ⟨500, "x"⟩) [] (by decide)

/-- With no shutdown and no exception, the pair loop completes with counts. -/
theorem execPairs_all_ok (shutdown : Nat → Bool) (outcome : Nat → CrawlOutcome)
    (hsd : ∀ i, shutdown i = false) (hok : ∀ i, ∃ c s, outcome i = CrawlOutcome.ok c s) :
    ∀ (pairs : List (String × String)) (i crawled saved : Nat),
      ∃ c s, execPairs shutdown outcome i pairs crawled saved = ExecOutcome.done c s := by
  intro pairs
  induction pairs with
  | nil => intro i c s; exact ⟨c, s, rfl⟩
  | cons p rest ih =>
    intro i crawled saved
    rw [execPairs]
    rw [hsd i]
    obtain ⟨c, s, hoc⟩ := hok i
    rw [hoc]
    simp only [if_false, Bool.false_eq_true]
    exact ih (i + 1) (crawled + c) (saved + s)

/-- C5: task lifecycle of the Scheduler.  (a) creation yields Pending with no
timestamps; (b) submitting a stored Pending task succeeds and stores it
Running with `started_at` set; (c) an execution in which no shutdown is
observed and every (keyword, city) cycle succeeds leaves the task Completed,
with `completed_at` set and a non-empty results map; (d) a task created and
then cancelled without ever being submitted ends Cancelled, its only earlier
status being Pending (never Running); (e) submitting a task that is Running
or terminal is rejected with the state unchanged. -/
theorem claim_c5_task_lifecycle :
    (∀ (task_id : String) (kws cities : List String) (now : Nat),
      (createTask task_id kws cities now).status = TaskStatus.pending ∧
      (createTask task_id kws cities now).started_at = none ∧
      (createTask task_id kws cities now).completed_at = none) ∧
    (∀ (st : SchedulerState) (task_id : String) (now : Nat) (t : CrawlTask),
      lookupKey task_id st.tasks = some t → t.status = TaskStatus.pending →
      (submitTask st task_id now).1 = true ∧
      lookupKey task_id (submitTask st task_id now).2.tasks =
        some { t with status := TaskStatus.running, started_at := some now }) ∧
    (∀ (shutdown : Nat → Bool) (outcome : Nat → CrawlOutcome) (t : CrawlTask) (now : Nat),
      (∀ i, shutdown i = false) → (∀ i, ∃ c s, outcome i = CrawlOutcome.ok c s) →
      (executeTask shutdown outcome t now).status = TaskStatus.completed ∧
      (executeTask shutdown outcome t now).completed_at = some now ∧
      (executeTask shutdown outcome t now).results ≠ []) ∧
    (∀ (st : SchedulerState) (task_id : String) (kws cities : List String)
        (now now2 : Nat) (fc : Bool),
      st.running_futures.contains task_id = false →
      (createTask task_id kws cities now).status = TaskStatus.pending ∧
      TaskStatus.pending ≠ TaskStatus.running ∧
      (cancelTask (createTaskS st task_id kws cities now) task_id fc now2).1 = true ∧
      lookupKey task_id
          (cancelTask (createTaskS st task_id kws cities now) task_id fc now2).2.tasks =
        some { createTask task_id kws cities now with
               status := TaskStatus.cancelled, completed_at := some now2 } ∧
      TaskStatus.cancelled ≠ TaskStatus.running) ∧
    (∀ (st : SchedulerState) (task_id : String) (now : Nat) (t : CrawlTask),
      lookupKey task_id st.tasks = some t →
      (t.isRunningP = true ∨ t.isCompletedP = true) →
      submitTask st task_id now = (false, st)) := by
  refine ⟨fun _ _ _ _ => ⟨rfl, rfl, rfl⟩, ?_, ?_, ?_, ?_⟩
  · intro st task_id now t hfind hpend
    have hrun : t.isRunningP = false := by
      rw [CrawlTask.isRunningP, hpend]; rfl
    have hcomp : t.isCompletedP = false := by
      rw [CrawlTask.isCompletedP, hpend]; rfl
    rw [submitTask, hfind]
    simp only [hrun, hcomp, Bool.false_eq_true, if_false]
    exact ⟨by trivial, lookupKey_setKey _ _ _⟩
  · intro shutdown outcome t now hsd hok
    obtain ⟨c, s, hdone⟩ := execPairs_all_ok shutdown outcome hsd hok (pairsOf t) 0 0 0
    rw [executeTask, hdone]
    exact ⟨rfl, rfl, by simp⟩
  · intro st task_id kws cities now now2 fc hfut
    refine ⟨rfl, by decide, ?_, ?_, by decide⟩
    · rw [cancelTask, createTaskS]
      simp only [lookupKey_setKey]
      rw [show (createTask task_id kws cities now).isCompletedP = false from rfl]
      simp only [Bool.false_eq_true, if_false, hfut]
    · rw [cancelTask, createTaskS]
      simp only [lookupKey_setKey]
      rw [show (createTask task_id kws cities now).isCompletedP = false from rfl]
      simp only [Bool.false_eq_true, if_false, hfut]
      exact lookupKey_setKey _ _ _
  · intro st task_id now t hfind hbad
    rw [submitTask, hfind]
    rcases hbad with h | h
    · simp [h]
    · cases hr : t.isRunningP
      · simp [hr, h]
      · simp [hr]

/-- Witness for C5 at concrete inputs: a submit of a stored pending task, a
fully successful execution, a cancel of a never-submitted task, and a rejected
re-submit of a Running task. -/
theorem claim_c5_witness :
    (submitTask ⟨[("t", createTask "t" ["kw"] ["c"] 0)], []⟩ "t" 1).1 = true ∧
    (executeTask (fun _ => false) (fun _ => CrawlOutcome.ok 2 1) (createTask "t" ["kw"] ["c"] 0)
        5).status = TaskStatus.completed ∧
    (cancelTask (createTaskS ⟨[], []⟩ "t" ["kw"] ["c"] 0) "t" true 3).1 = true ∧
    submitTask ⟨[("t", { createTask "t" ["kw"] ["c"] 0 with status := TaskStatus.running })],
        []⟩ "t" 9 =
      (false, ⟨[("t", { createTask "t" ["kw"] ["c"] 0 with status := TaskStatus.running })], []⟩) :=
  ⟨(claim_c5_task_lifecycle.2.1 ⟨[("t", createTask "t" ["kw"] ["c"] 0)], []⟩ "t" 1
      (createTask "t" ["kw"] ["c"] 0) rfl rfl).1,
   (claim_c5_task_lifecycle.2.2.1 (fun _ => false) (fun _ => CrawlOutcome.ok 2 1)
      (createTask "t" ["kw"] ["c"] 0) 5 (fun _ => rfl) (fun _ => ⟨2, 1, rfl⟩)).1,
   (claim_c5_task_lifecycle.2.2.2.1 ⟨[], []⟩ "t" ["kw"] ["c"] 0 3 true rfl).2.2.1,
   claim_c5_task_lifecycle.2.2.2.2
     ⟨[("t", { createTask "t" ["kw"] ["c"] 0 with status := TaskStatus.running })], []⟩ "t" 9
     { createTask "t" ["kw"] ["c"] 0 with status := TaskStatus.running } rfl (Or.inl rfl)⟩

/-- The accumulator of Python `max(..., key=...)` stays in the list. -/
theorem foldl_best_mem (t : List ProxyInfo) :
    ∀ h : ProxyInfo,
      t.foldl (fun best p => if scoreProxy best < scoreProxy p then p else best) h ∈ h :: t := by
  induction t with
  | nil => intro h; exact List.mem_cons_self h []
  | cons a t ih =>
    intro h
    rw [List.foldl_cons]
    rcases List.mem_cons.mp (ih (if scoreProxy h < scoreProxy a then a else h)) with heq | hmem
    · rw [heq]
      split
      · exact List.mem_cons_of_mem _ (List.mem_cons_self _ _)
      · exact List.mem_cons_self _ _
    · exact List.mem_cons_of_mem _ (List.mem_cons_of_mem _ hmem)

theorem bestPerformanceProxy_mem (l : List ProxyInfo) (p : ProxyInfo)
    (h : bestPerformanceProxy l = some p) : p ∈ l := by
  cases l with
  | nil => simp [bestPerformanceProxy] at h
  | cons a t =>
    rw [bestPerformanceProxy] at h
    have := foldl_best_mem t a
    rwa [Option.some_inj.mp h] at this

theorem getProxyRoundRobin_mem (l : List ProxyInfo) (idx : Nat) (p : ProxyInfo)
    (h : (getProxyRoundRobin l idx).1 = some p) : p ∈ l := by
  rw [getProxyRoundRobin] at h
  split at h
  · simp at h
  · exact List.get?_mem h

/-- C6: whatever the strategy, the enabled manager only ever hands out a proxy
that satisfies the health predicate (Active, success rate ≥ 0.7, fewer than 10
failures); consequently any proxy with 3 recorded successes and 7 recorded
failures is unhealthy (even while Active) and is never the selected proxy. -/
theorem claim_c6_selection_only_healthy (enabled checkDue : Bool)
    (healthCheck : List ProxyInfo → List ProxyInfo) (proxies : List ProxyInfo)
    (idx : Nat) (strategy : String) (randPick : Nat) (p : ProxyInfo)
    (h : (getProxy enabled checkDue healthCheck proxies idx strategy randPick).1 = some p) :
    p.isHealthyP = true ∧
    ∀ q : ProxyInfo, q.success_count = 3 → q.failure_count = 7 →
      q.isHealthyP = false ∧ p ≠ q := by
  have hq : ∀ q : ProxyInfo, q.success_count = 3 → q.failure_count = 7 →
      q.isHealthyP = false := by
    intro q h3 h7
    rw [ProxyInfo.isHealthyP, ProxyInfo.successRate, h3, h7]
    norm_num
  have hmem : p.isHealthyP = true := by
    rw [getProxy] at h
    cases enabled with
    | false => simp at h
    | true =>
      simp only [Bool.not_true, Bool.false_eq_true, if_false] at h
      set pool := if checkDue then healthCheck proxies else proxies with hpool
      split at h
      · simp at h
      · have hp : p ∈ pool.filter ProxyInfo.isHealthyP := by
          split at h
          · exact getProxyRoundRobin_mem _ _ _ h
          · split at h
            · exact List.get?_mem h
            · split at h
              · exact bestPerformanceProxy_mem _ _ h
              · exact getProxyRoundRobin_mem _ _ _ h
        exact (List.mem_filter.mp hp).2
  refine ⟨hmem, fun q h3 h7 => ⟨hq q h3 h7, fun hpq => ?_⟩⟩
  rw [hpq, hq q h3 h7] at hmem
  exact Bool.false_ne_true hmem

/-- Witness for C6: with a pool holding one healthy proxy (8 successes, no
failure), round-robin selection returns it; the 3-success/7-failure proxy is
unhealthy and distinct from the selected one. -/
theorem claim_c6_witness :
    ProxyInfo.isHealthyP ⟨"p", 8080, "http", ProxyStatus.active, 8, 0, none⟩ = true ∧
    ProxyInfo.isHealthyP ⟨"q", 9090, "http", ProxyStatus.active, 3, 7, none⟩ = false ∧
    (⟨"p", 8080, "http", ProxyStatus.active, 8, 0, none⟩ : ProxyInfo) ≠
      ⟨"q", 9090, "http", ProxyStatus.active, 3, 7, none⟩ := by
  have hsel : (getProxy true false id [⟨"p", 8080, "http", ProxyStatus.active, 8, 0, none⟩] 0
      "round_robin" 0).1 = some ⟨"p", 8080, "http", ProxyStatus.active, 8, 0, none⟩ := by
    have hh : ProxyInfo.isHealthyP ⟨"p", 8080, "http", ProxyStatus.active, 8, 0, none⟩
        = true := by
      rw [ProxyInfo.isHealthyP, ProxyInfo.successRate]
      norm_num
    simp [getProxy, getProxyRoundRobin, hh]
  have h := claim_c6_selection_only_healthy true false id
    [⟨"p", 8080, "http", ProxyStatus.active, 8, 0, none⟩] 0 "round_robin" 0
    ⟨"p", 8080, "http", ProxyStatus.active, 8, 0, none⟩ hsel
  exact ⟨h.1, (h.2 ⟨"q", 9090, "http", ProxyStatus.active, 3, 7, none⟩ rfl rfl).1,
    (h.2 ⟨"q", 9090, "http", ProxyStatus.active, 3, 7, none⟩ rfl rfl).2⟩

theorem recordRequest_total (st : MonitorState) (now : Nat) (success : Bool)
    (errorType : Option String) (jobsCount : Nat) :
    (recordRequest st now success errorType jobsCount).total_requests =
      st.total_requests + 1 := by
  rw [recordRequest]
  repeat' split
  all_goals simp_all

theorem recordRequest_successful (st : MonitorState) (now : Nat) (success : Bool)
    (errorType : Option String) (jobsCount : Nat) :
    (recordRequest st now success errorType jobsCount).successful_requests =
      st.successful_requests + (if success then 1 else 0) := by
  rw [recordRequest]
  repeat' split
  all_goals simp_all

theorem recordRequest_consecutive_failure (st : MonitorState) (now : Nat)
    (errorType : Option String) (jobsCount : Nat) :
    (recordRequest st now false errorType jobsCount).consecutive_failures =
      st.consecutive_failures + 1 := by
  rw [recordRequest]
  repeat' split
  all_goals simp_all

theorem applyCalls_total (calls : List ReqCall) :
    ∀ st : MonitorState, (applyCalls st calls).total_requests =
      st.total_requests + calls.length := by
  induction calls with
  | nil => intro st; rfl
  | cons c t ih =>
    intro st
    simp only [applyCalls] at ih ⊢
    rw [List.foldl_cons, ih, recordRequest_total, List.length_cons]
    omega

theorem applyCalls_successful (calls : List ReqCall) :
    ∀ st : MonitorState, (applyCalls st calls).successful_requests =
      st.successful_requests + (calls.filter (fun c => c.success)).length := by
  induction calls with
  | nil => intro st; rfl
  | cons c t ih =>
    intro st
    simp only [applyCalls] at ih ⊢
    rw [List.foldl_cons, ih, recordRequest_successful]
    cases hc : c.success
    · simp only [List.filter_cons, hc, Bool.false_eq_true, if_false]
      omega
    · simp only [List.filter_cons, hc, if_true]
      simp only [List.length_cons]
      omega

theorem applyCalls_consecutive (calls : List ReqCall) (hall : ∀ c ∈ calls, c.success = false) :
    ∀ st : MonitorState, (applyCalls st calls).consecutive_failures =
      st.consecutive_failures + calls.length := by
  induction calls with
  | nil => intro st; rfl
  | cons c t ih =>
    intro st
    simp only [applyCalls] at ih ⊢
    rw [List.foldl_cons]
    have hc : c.success = false := hall c (List.mem_cons_self _ _)
    rw [ih (fun d hd => hall d (List.mem_cons_of_mem _ hd)), hc,
      recordRequest_consecutive_failure, List.length_cons]
    omega

/-- C7: after any sequence of `record_request` calls totalling 25 requests of
which exactly 5 succeeded (20% success rate over more than 20 requests), the
health check reports critical; after 11 consecutive failures it reports
critical with the consecutive-failures reason, which differs from the
low-success-rate reason. -/
theorem claim_c7_monitor_health_thresholds :
    (∀ (calls : List ReqCall) (now : Nat), calls.length = 25 →
      (calls.filter (fun c => c.success)).length = 5 →
      (isHealthCritical (applyCalls monitorInit calls) now).1 = true) ∧
    (∀ (calls : List ReqCall) (now : Nat), calls.length = 11 →
      (∀ c ∈ calls, c.success = false) →
      isHealthCritical (applyCalls monitorInit calls) now = (true, "连续失败次数过多")) ∧
    "连续失败次数过多" ≠ "成功率过低" := by
  refine ⟨?_, ?_, by decide⟩
  · intro calls now hlen hsucc
    have htot : (applyCalls monitorInit calls).total_requests = 25 := by
      rw [applyCalls_total, hlen]; rfl
    have hsuc : (applyCalls monitorInit calls).successful_requests = 5 := by
      rw [applyCalls_successful, hsucc]; rfl
    rw [isHealthCritical]
    split
    · rfl
    · rw [if_pos]
      constructor
      · omega
      · rw [getSuccessRate, if_neg (by omega), htot, hsuc]
        norm_num
  · intro calls now hlen hall
    have hcon : (applyCalls monitorInit calls).consecutive_failures = 11 := by
      rw [applyCalls_consecutive calls hall, hlen]; rfl
    rw [isHealthCritical, if_pos (by omega)]

/-- Witness for C7: 5 successful then 20 failed requests trip the success-rate
check; 11 straight failures trip the consecutive-failures check. -/
theorem claim_c7_witness :
    (isHealthCritical
      (applyCalls monitorInit
        (List.replicate 5 ⟨0, true, none, 1⟩ ++ List.replicate 20 ⟨0, false, none, 0⟩)) 99).1 =
      true ∧
    isHealthCritical (applyCalls monitorInit (List.replicate 11 ⟨0, false, none, 0⟩)) 99 =
      (true, "连续失败次数过多") :=
  ⟨claim_c7_monitor_health_thresholds.1
      (List.replicate 5 ⟨0, true, none, 1⟩ ++ List.replicate 20 ⟨0, false, none, 0⟩) 99
      (by decide) (by decide),
   claim_c7_monitor_health_thresholds.2.1 (List.replicate 11 ⟨0, false, none, 0⟩) 99
      (by decide) (by decide)⟩

/-- C8: whenever the configured city list contains the sentinel `000000`, the
search loop swaps in the full 32-entry province-code list (010000 … 320000)
and iterates every (keyword, province-code) pair — `kws.length * 32` requests
rather than a single unfiltered-area request. -/
theorem claim_c8_province_expansion (kws cities : List String)
    (h : cities.contains "000000" = true) :
    expandCities cities =
      ["010000", "020000", "030000", "040000", "050000", "060000", "070000", "080000",
       "090000", "100000", "110000", "120000", "130000", "140000", "150000", "160000",
       "170000", "180000", "190000", "200000", "210000", "220000", "230000", "240000",
       "250000", "260000", "270000", "280000", "290000", "300000", "310000", "320000"] ∧
    (expandCities cities).length = 32 ∧
    searchPairs kws cities =
      kws.flatMap (fun kw => provinceCodeList.map (fun c => (kw, c))) ∧
    (searchPairs kws cities).length = kws.length * 32 := by
  have hexp : expandCities cities = provinceCodeList := by
    rw [expandCities, if_pos h]
  have hlen : ∀ ks : List String,
      (ks.flatMap (fun kw => provinceCodeList.map (fun c => (kw, c)))).length =
        ks.length * 32 := by
    intro ks
    induction ks with
    | nil => rfl
    | cons k t ih =>
      rw [List.flatMap_cons, List.length_append, ih, List.length_map, List.length_cons]
      rw [show provinceCodeList.length = 32 from rfl]
      ring
  refine ⟨by rw [hexp]; rfl, by rw [hexp]; rfl, ?_, ?_⟩
  · rw [searchPairs, hexp]
  · rw [searchPairs, hexp, hlen]

/-- Witness for C8: one keyword and the bare sentinel city list. -/
theorem claim_c8_witness :
    searchPairs ["数据分析"] ["000000"] =
      ["数据分析"].flatMap (fun kw => provinceCodeList.map (fun c => (kw, c))) :=
  (claim_c8_province_expansion ["数据分析"] ["000000"] (by decide)).2.2.1

/-- C9: exporting a flattened batch of 850 records is exactly three
batch-create calls of 400, 400 and 50 records in that order, each followed by
a pacing sleep, and no batch-create call in any export ever carries more than
400 records. -/
theorem claim_c9_feishu_chunking :
    (∀ fields : List Nat, fields.length = 850 →
      feishuExportTrace fields =
        [ExportEvent.call 400, ExportEvent.sleep, ExportEvent.call 400, ExportEvent.sleep,
         ExportEvent.call 50, ExportEvent.sleep]) ∧
    (∀ (fields : List Nat) (n : Nat),
      ExportEvent.call n ∈ feishuExportTrace fields → n ≤ 400) := by
  constructor
  · intro fields h
    rw [feishuExportTrace, feishuBatches, h]
    rw [show (850 : Nat) / 400 + 1 = 3 from rfl]
    rw [show List.range 3 = [0, 1, 2] from rfl]
    simp only [List.map_cons, List.map_nil, List.flatMap_cons, List.flatMap_nil]
    simp only [List.length_take, List.length_drop, h]
    rfl
  · intro fields n hmem
    rw [feishuExportTrace] at hmem
    obtain ⟨b, hb, hev⟩ := List.mem_flatMap.mp hmem
    have hn : n = b.length := by
      rcases List.mem_cons.mp hev with h1 | h1
      · injection h1
      · rcases List.mem_cons.mp h1 with h2 | h2
        · simp at h2
        · simp at h2
    obtain ⟨i, _, hbi⟩ := List.mem_map.mp hb
    rw [hn, ← hbi]
    exact List.length_take_le _ _

/-- Witness for C9: a concrete 850-record batch. -/
theorem claim_c9_witness :
    feishuExportTrace (List.replicate 850 (0 : Nat)) =
      [ExportEvent.call 400, ExportEvent.sleep, ExportEvent.call 400, ExportEvent.sleep,
       ExportEvent.call 50, ExportEvent.sleep] :=
  claim_c9_feishu_chunking.1 (List.replicate 850 0) (List.length_replicate 850 0)
